import Mathlib

/-
Shallow embedding of the `chattybackend` bootstrap layer (src/src/app.ts).

The repository wires up an Express application (`ChattyServer`): security
middleware (cookieSession, hpp, helmet, cors), standard middleware
(compression, json, urlencoded), application routes, a global error handler
(an `app.all` catch-all for unmatched URLs plus an error middleware that
serializes `CustomError` instances and otherwise calls `next()`), and an
async `startServer` that builds an `http.Server`, awaits `createSocketIO`
(which connects a redis pub client and its duplicate sub client and installs
the redis adapter) and only then calls `httpServer.listen(SERVER_PORT)`.

Registration order and the startup sequence are modelled as explicit lists;
the error middleware is modelled as a function from the routing outcome to
the reply the repository code produces (log entries plus an optional
response).  `CustomError.serializeErrors` lives in
`src/shared/globals/helpers/error-handler`, which is not among the sources,
so its output is modelled from the spec (Error Record = kind, human message,
machine status code, optional structured field list).
-/

namespace Chatty

/-- Environment-provided configuration (`config` in the source).  The source
accesses `config.SECRET_KEY_ONE!` etc. after `validateConfig`, so the fields
are modelled as present strings. -/
structure Config where
  SECRET_KEY_ONE : String
  SECRET_KEY_TWO : String
  NODE_ENV : String
  CLIENT_URL : String
  REDIS_HOST : String
  deriving DecidableEq

/-- `HTTP_STATUS.NOT_FOUND` from the http-status-codes package. -/
def HTTP_STATUS.NOT_FOUND : Nat := 404

/-- `HTTP_STATUS.INTERNAL_SERVER_ERROR` from the http-status-codes package
(the fixed internal-error status the spec talks about). -/
def HTTP_STATUS.INTERNAL_SERVER_ERROR : Nat := 500

/-- `const SERVER_PORT = 5000` (src/src/app.ts line 41). -/
def SERVER_PORT : Nat := 5000

/- ------------------------------------------------------------------ -/
/- Security / standard / route middleware registration (lines 54-105)  -/
/- ------------------------------------------------------------------ -/

/-- Options object passed to `cookieSession` (lines 66-72). -/
structure CookieSessionOptions where
  name : String
  keys : List String
  maxAge : Nat
  secure : Bool
  deriving DecidableEq

/-- Options object passed to `cors` (lines 77-82). -/
structure CorsOptions where
  origin : String
  credentials : Bool
  optionsSuccessStatus : Nat
  methods : List String
  deriving DecidableEq

/-- The literal options object of the `cookieSession` call:
name `session`, keys `[SECRET_KEY_ONE, SECRET_KEY_TWO]`,
`maxAge: 24 * 7 * 3600000`, `secure: config.NODE_ENV !== 'development'`. -/
def cookieSessionOptions (cfg : Config) : CookieSessionOptions :=
  ⟨"session", [cfg.SECRET_KEY_ONE, cfg.SECRET_KEY_TWO], 24 * 7 * 3600000,
    cfg.NODE_ENV != "development"⟩

/-- The literal options object of the `cors` call:
`origin: config.CLIENT_URL`, `credentials: true`,
`optionsSuccessStatus: 200`, `methods: ['GET','POST','DELETE','OPTIONS']`. -/
def corsOptions (cfg : Config) : CorsOptions :=
  ⟨cfg.CLIENT_URL, true, 200, ["GET", "POST", "DELETE", "OPTIONS"]⟩

/-- One registered Express middleware / handler, tagged with the
configuration it was registered with. -/
inductive Middleware where
  | cookieSession (opts : CookieSessionOptions)
  | hpp
  | helmet
  | cors (opts : CorsOptions)
  | compression
  | jsonBody (limit : String)
  | urlencodedBody (extended : Bool) (limit : String)
  | routes
  | catchAll
  | errorHandler
  deriving DecidableEq

/-- `securityMiddleware` (lines 62-84): registers cookieSession, hpp,
helmet and cors, in that textual order. -/
def securityMiddleware (cfg : Config) : List Middleware :=
  [Middleware.cookieSession (cookieSessionOptions cfg),
    Middleware.hpp,
    Middleware.helmet,
    Middleware.cors (corsOptions cfg)]

/-- `standardMiddleware` (lines 86-101): compression, json (50mb limit),
urlencoded (extended, 50mb limit). -/
def standardMiddleware : List Middleware :=
  [Middleware.compression, Middleware.jsonBody "50mb",
    Middleware.urlencodedBody true "50mb"]

/-- `routeMiddleware` (lines 103-105): `applicationRoutes(app)`. -/
def routeMiddleware : List Middleware :=
  [Middleware.routes]

/-- `globalErrorHandler` registrations (lines 107-126): the `app.all`
catch-all for unavailable URLs, then the error middleware. -/
def globalErrorHandlerRegistration : List Middleware :=
  [Middleware.catchAll, Middleware.errorHandler]

/-- `start` (lines 54-60): the fixed registration sequence
securityMiddleware, standardMiddleware, routeMiddleware,
globalErrorHandler.  (`startServer`, also called from `start`, is modelled
separately below as the startup trace.)  Express executes middleware in
registration order, so this list is also the per-request execution order. -/
def start (cfg : Config) : List Middleware :=
  securityMiddleware cfg ++ standardMiddleware ++ routeMiddleware ++
    globalErrorHandlerRegistration

/- ------------------------------------------------------------------ -/
/- The global error handler (lines 107-126)                            -/
/- ------------------------------------------------------------------ -/

/-- A failure value reaching the error middleware: either an instance of the
closed custom-error shape (`error instanceof CustomError`) or anything
else (a programming error / unexpected exception, carried here as its
full server-side detail). -/
inductive ServerError where
  | custom (kind : String) (message : String) (statusCode : Nat)
      (fields : List (String × String))
  | unknown (detail : String)
  deriving DecidableEq

/-- A JSON response body: either the catch-all object with a single
`message` field, or a serialized Error Record. -/
inductive Body where
  | message (m : String)
  | serialized (kind : String) (message : String) (statusCode : Nat)
      (fields : List (String × String))
  deriving DecidableEq

/-- An HTTP response as produced by `res.status(...).json(...)`. -/
structure HttpResponse where
  status : Nat
  body : Body
  deriving DecidableEq

/-- Modelled from the spec: `CustomError.serializeErrors` is defined in
`src/shared/globals/helpers/error-handler`, which is not among the source
files; the spec describes the Error Record it serializes as kind, human
message, machine status code and optional structured field list. -/
def serializeErrors (kind : String) (message : String) (statusCode : Nat)
    (fields : List (String × String)) : Body :=
  Body.serialized kind message statusCode fields

/-- An inbound request; `originalUrl` is the requested path. -/
structure Request where
  originalUrl : String
  deriving DecidableEq

/-- How routing ended for a request: an application route responded, a
handler raised a failure, or no registered handler matched the path. -/
inductive RouteResult where
  | handled (r : HttpResponse)
  | failed (e : ServerError)
  | unmatched
  deriving DecidableEq

/-- What the repository code sends back for one request: the errors logged
server-side (`log.error(error)` records the full value) and the response
written by the repository code, if any (`none` models the error middleware
falling through to `next()` without responding). -/
structure ServerReply where
  logged : List ServerError
  response : Option HttpResponse
  deriving DecidableEq

/-- `globalErrorHandler` semantics (lines 107-126):
a handled request never reaches the catch-all; an unmatched request hits
`app.all` and gets `res.status(HTTP_STATUS.NOT_FOUND).json({ message:
req.originalUrl + ' not found' })`; a raised failure reaches the error
middleware, which always logs it, serializes it with its own status code
when it is `instanceof CustomError`, and otherwise calls `next()` without
writing any response. -/
def globalErrorHandler (req : Request) (out : RouteResult) : ServerReply :=
  match out with
  | RouteResult.handled r => ⟨[], some r⟩
  | RouteResult.unmatched =>
      ⟨[], some ⟨HTTP_STATUS.NOT_FOUND,
        Body.message (req.originalUrl ++ " not found")⟩⟩
  | RouteResult.failed e =>
      match e with
      | ServerError.custom kind message statusCode fields =>
          ⟨[e], some ⟨statusCode, serializeErrors kind message statusCode fields⟩⟩
      | ServerError.unknown _ => ⟨[e], none⟩

/- ------------------------------------------------------------------ -/
/- Startup: startServer / createSocketIO / startHttpServer (128-163)   -/
/- ------------------------------------------------------------------ -/

/-- A redis client handle; `duplicate` yields a distinct client with the
same url. -/
structure RedisClient where
  url : String
  handle : Nat
  deriving DecidableEq

/-- `createClient({ url: config.REDIS_HOST })`. -/
def createClient (url : String) : RedisClient :=
  ⟨url, 0⟩

/-- `pubClient.duplicate()`: a second, distinct connection to the same
backbone endpoint. -/
def RedisClient.duplicate (c : RedisClient) : RedisClient :=
  ⟨c.url, c.handle + 1⟩

/-- Whether the two awaited `connect()` calls succeed; the failure cases
drive the `catch` branch of `startServer`. -/
inductive ConnectBehavior where
  | ok
  | pubFails
  | subFails
  deriving DecidableEq

/-- Observable startup events.  `processExit` and `retryConnect` are
expressible so their absence from every trace is a statement about the
code: the `catch` block only calls `log.error(error)`. -/
inductive StartupEvent where
  | createHttpServer
  | pubConnected
  | subConnected
  | adapterSet
  | logInfo
  | listen (port : Nat)
  | logError
  | processExit
  | retryConnect
  deriving DecidableEq

/-- The socket.io `Server` constructed by `new Server(httpServer, { cors:
... })`: attached to the given http server, with the cors options of
lines 141-144. -/
structure SocketIOServer where
  attachedServerId : Nat
  corsOrigin : String
  corsMethods : List String
  deriving DecidableEq

/-- Result of `createSocketIO`: the io server, the two redis clients, the
pair handed to `createAdapter` when the connects succeed, whether both
connects completed, and the completion events in order. -/
structure SocketIOResult where
  ioServer : SocketIOServer
  pubClient : RedisClient
  subClient : RedisClient
  adapterClients : Option (RedisClient × RedisClient)
  connected : Bool
  events : List StartupEvent
  deriving DecidableEq

/-- `createSocketIO` (lines 139-153): constructs the io server on the
given http server, creates `pubClient` from `config.REDIS_HOST` and
`subClient` as its duplicate, awaits both `connect()` calls, and installs
`createAdapter(pubClient, subClient)`.  If either connect rejects, the
awaited `Promise.all` rejects: the adapter is never installed and no
completion events are produced. -/
def createSocketIO (cfg : Config) (httpServerId : Nat) (b : ConnectBehavior) :
    SocketIOResult :=
  let srv : SocketIOServer :=
    ⟨httpServerId, cfg.CLIENT_URL, ["GET", "POST", "DELETE", "OPTIONS"]⟩
  let pubClient : RedisClient := createClient cfg.REDIS_HOST
  let subClient : RedisClient := pubClient.duplicate
  match b with
  | ConnectBehavior.ok =>
      ⟨srv, pubClient, subClient, some (pubClient, subClient), true,
        [StartupEvent.pubConnected, StartupEvent.subConnected,
          StartupEvent.adapterSet]⟩
  | ConnectBehavior.pubFails =>
      ⟨srv, pubClient, subClient, none, false, []⟩
  | ConnectBehavior.subFails =>
      ⟨srv, pubClient, subClient, none, false, []⟩

/-- `startHttpServer` (lines 155-161): logs and calls
`httpServer.listen(SERVER_PORT)` on the given server. -/
def startHttpServer (httpServerId : Nat) :
    List StartupEvent × List (Nat × Nat) :=
  ([StartupEvent.logInfo, StartupEvent.listen SERVER_PORT],
    [(httpServerId, SERVER_PORT)])

/-- Everything `startServer` did: the single http server it built, the io
server attached to it, the clients given to the adapter, every
`listen(serverId, port)` call made, and the event trace. -/
structure StartupOutcome where
  httpServerId : Nat
  ioServer : SocketIOServer
  adapterClients : Option (RedisClient × RedisClient)
  listenCalls : List (Nat × Nat)
  events : List StartupEvent
  deriving DecidableEq

/-- `startServer` (lines 128-137): builds one `http.Server`, awaits
`createSocketIO(httpServer)`, then `startHttpServer(httpServer)` (and
`socketIOConnections(socketIO)`, whose body is empty).  A rejection
anywhere inside the `try` reaches the `catch`, which only runs
`log.error(error)`: no listen, no exit, no retry. -/
def startServer (cfg : Config) (b : ConnectBehavior) : StartupOutcome :=
  let httpServerId : Nat := 0
  let r : SocketIOResult := createSocketIO cfg httpServerId b
  if r.connected then
    ⟨httpServerId, r.ioServer, r.adapterClients,
      (startHttpServer httpServerId).2,
      StartupEvent.createHttpServer :: (r.events ++ (startHttpServer httpServerId).1)⟩
  else
    ⟨httpServerId, r.ioServer, r.adapterClients, [],
      StartupEvent.createHttpServer :: (r.events ++ [StartupEvent.logError])⟩

/-- A concrete configuration used by closed witness statements. -/
def sampleConfig : Config :=
  ⟨"key-one", "key-two", "production", "http://localhost:3000",
    "redis://localhost:6379"⟩

/- ------------------------------------------------------------------ -/
/- Claims                                                              -/
/- ------------------------------------------------------------------ -/

/-- Claim C1, counterexample: at a concrete unrecognized failure the error
middleware logs it and then calls `next()` without writing any response, so
the client does not receive any failure record from this handler — in
particular not a generic record with the fixed internal-error status code
the claim asserts. -/
theorem C1_counterexample :
    (globalErrorHandler ⟨"/api/posts"⟩
        (RouteResult.failed
          (ServerError.unknown "TypeError: x is not a function"))).response =
      none :=
  rfl

/-- Claim C1, amended: for every failure that reaches the central error
handler and is not an instance of the closed custom-error shape, the handler
logs it with full detail server-side and sends no response of its own: it
falls through to `next()`, so the repository code never serializes the
internal message or stack content to the client, and the (absent) handler
response is trivially identical regardless of the underlying cause. -/
theorem C1_unknown_logged_no_response (req : Request) (detail : String) :
    globalErrorHandler req (RouteResult.failed (ServerError.unknown detail)) =
      ⟨[ServerError.unknown detail], none⟩ :=
  rfl

/-- Claim C2: every request whose path matched no registered handler gets
the not-found status (404) and a body whose message starts with the
originally requested path. -/
theorem C2_unmatched_route_not_found (req : Request) :
    ∃ msg, globalErrorHandler req RouteResult.unmatched =
        ⟨[], some ⟨HTTP_STATUS.NOT_FOUND, Body.message msg⟩⟩ ∧
      HTTP_STATUS.NOT_FOUND = 404 ∧
      ∃ rest, msg = req.originalUrl ++ rest :=
  ⟨req.originalUrl ++ " not found", rfl, rfl, " not found", rfl⟩

/-- Claim C3: every recognized failure (an instance of the custom-error
shape) is answered by the central error handler with that error's own
declared status code and its structured serialization as the body, after
being logged. -/
theorem C3_custom_error_serialized (req : Request) (kind message : String)
    (statusCode : Nat) (fields : List (String × String)) :
    globalErrorHandler req
        (RouteResult.failed
          (ServerError.custom kind message statusCode fields)) =
      ⟨[ServerError.custom kind message statusCode fields],
        some ⟨statusCode, serializeErrors kind message statusCode fields⟩⟩ :=
  rfl

/-- Claim C4: whenever the startup trace contains the listen event, both
backbone connection completions occur strictly earlier in the trace: the
server never starts listening unless both connections completed first. -/
theorem C4_connects_before_listen (cfg : Config) (b : ConnectBehavior)
    (h : StartupEvent.listen SERVER_PORT ∈ (startServer cfg b).events) :
    ∃ i j k, i < k ∧ j < k ∧
      (startServer cfg b).events.get? i = some StartupEvent.pubConnected ∧
      (startServer cfg b).events.get? j = some StartupEvent.subConnected ∧
      (startServer cfg b).events.get? k =
        some (StartupEvent.listen SERVER_PORT) := by
  cases b with
  | ok =>
      exact ⟨1, 2, 5, by norm_num, by norm_num, rfl, rfl, rfl⟩
  | pubFails =>
      have he : (startServer cfg ConnectBehavior.pubFails).events =
          [StartupEvent.createHttpServer, StartupEvent.logError] := rfl
      rw [he] at h
      simp at h
  | subFails =>
      have he : (startServer cfg ConnectBehavior.subFails).events =
          [StartupEvent.createHttpServer, StartupEvent.logError] := rfl
      rw [he] at h
      simp at h

/-- Claim C4 witness: on the sample configuration with both connects
succeeding, the listen event is in the trace and is preceded by both
connection completions. -/
theorem C4_witness :
    StartupEvent.listen SERVER_PORT ∈
        (startServer sampleConfig ConnectBehavior.ok).events ∧
    (∃ i j k, i < k ∧ j < k ∧
      (startServer sampleConfig ConnectBehavior.ok).events.get? i =
        some StartupEvent.pubConnected ∧
      (startServer sampleConfig ConnectBehavior.ok).events.get? j =
        some StartupEvent.subConnected ∧
      (startServer sampleConfig ConnectBehavior.ok).events.get? k =
        some (StartupEvent.listen SERVER_PORT)) :=
  ⟨by decide,
    C4_connects_before_listen sampleConfig ConnectBehavior.ok (by decide)⟩

/-- Claim C5: on a successful startup, the bridge creates the pub client
from the configured backbone endpoint and the sub client as its duplicate;
the two clients are distinct, and exactly this pair is handed to the
fan-out adapter. -/
theorem C5_two_distinct_backbone_clients (cfg : Config) (sid : Nat) :
    ( createSocketIO cfg sid ConnectBehavior.ok).pubClient =
        createClient cfg.REDIS_HOST ∧
    ( createSocketIO cfg sid ConnectBehavior.ok).subClient =
        RedisClient.duplicate
          (( createSocketIO cfg sid ConnectBehavior.ok).pubClient) ∧
    ( createSocketIO cfg sid ConnectBehavior.ok).pubClient ≠
        ( createSocketIO cfg sid ConnectBehavior.ok).subClient ∧
    ( createSocketIO cfg sid ConnectBehavior.ok).adapterClients =
      some (( createSocketIO cfg sid ConnectBehavior.ok).pubClient,
        ( createSocketIO cfg sid ConnectBehavior.ok).subClient) := by
  refine ⟨rfl, rfl, ?_, rfl⟩
  have hpub : ( createSocketIO cfg sid ConnectBehavior.ok).pubClient =
      ⟨cfg.REDIS_HOST, 0⟩ := rfl
  have hsub : ( createSocketIO cfg sid ConnectBehavior.ok).subClient =
      ⟨cfg.REDIS_HOST, 1⟩ := rfl
  rw [hpub, hsub]
  intro h
  have hh : (0 : Nat) = 1 := congrArg RedisClient.handle h
  simp at hh

/-- Claim C6: the session cookie middleware is configured with the fixed
name `session`, exactly the two configured signing keys in order, a maximum
age of 7 days (in milliseconds), and the secure flag set iff the
environment mode is not `development`; this registration is part of the
security middleware. -/
theorem C6_cookie_session_config (cfg : Config) :
    (cookieSessionOptions cfg).name = "session" ∧
    (cookieSessionOptions cfg).keys =
      [cfg.SECRET_KEY_ONE, cfg.SECRET_KEY_TWO] ∧
    (cookieSessionOptions cfg).maxAge = 7 * 24 * 60 * 60 * 1000 ∧
    ((cookieSessionOptions cfg).secure = true ↔
      cfg.NODE_ENV ≠ "development") ∧
    Middleware.cookieSession (cookieSessionOptions cfg) ∈
      securityMiddleware cfg := by
  refine ⟨rfl, rfl, rfl, ?_, ?_⟩
  · simp [cookieSessionOptions]
  · simp [securityMiddleware]

/-- Claim C7: the cross-origin policy for HTTP requests allows only the
configured client origin, allows credentials, restricts methods to exactly
GET, POST, DELETE, OPTIONS, and uses the fixed success status 200 for
preflight; this registration is part of the security middleware. -/
theorem C7_cors_config (cfg : Config) :
    (corsOptions cfg).origin = cfg.CLIENT_URL ∧
    (corsOptions cfg).credentials = true ∧
    (corsOptions cfg).methods = ["GET", "POST", "DELETE", "OPTIONS"] ∧
    (corsOptions cfg).optionsSuccessStatus = 200 ∧
    Middleware.cors (corsOptions cfg) ∈ securityMiddleware cfg := by
  refine ⟨rfl, rfl, rfl, rfl, ?_⟩
  simp [securityMiddleware]

/-- Claim C8: the startup registration sequence places the full security
chain — cookieSession, hpp, helmet, cors, in that order — strictly before
the application route registration, so every inbound request traverses the
Security Gate before any route handler runs. -/
theorem C8_security_before_routes (cfg : Config) :
    start cfg =
      securityMiddleware cfg ++ standardMiddleware ++ routeMiddleware ++
        globalErrorHandlerRegistration ∧
    securityMiddleware cfg =
      [Middleware.cookieSession (cookieSessionOptions cfg), Middleware.hpp,
        Middleware.helmet, Middleware.cors (corsOptions cfg)] ∧
    Middleware.routes ∈ routeMiddleware ∧
    Middleware.routes ∉ securityMiddleware cfg ∧
    Middleware.routes ∉ standardMiddleware := by
  refine ⟨rfl, rfl, by simp [routeMiddleware], ?_, by decide⟩
  simp [securityMiddleware]

/-- Claim C9: startup builds exactly one HTTP server, attaches the event
channel (socket.io) server to that same instance, and issues exactly one
listen call, on that instance, for the single configured port 5000. -/
theorem C9_single_port_shared_server (cfg : Config) :
    (startServer cfg ConnectBehavior.ok).ioServer.attachedServerId =
      (startServer cfg ConnectBehavior.ok).httpServerId ∧
    (startServer cfg ConnectBehavior.ok).listenCalls =
      [((startServer cfg ConnectBehavior.ok).httpServerId, SERVER_PORT)] ∧
    SERVER_PORT = 5000 :=
  ⟨rfl, rfl, rfl⟩

/-- Claim C10: if either backbone connect fails during startup, the failure
is caught and only logged: the trace is exactly create-server then
log-error, no listen call is ever made, and the process neither exits nor
retries. -/
theorem C10_startup_failure_only_logged (cfg : Config) (b : ConnectBehavior)
    (h : b ≠ ConnectBehavior.ok) :
    (startServer cfg b).events =
      [StartupEvent.createHttpServer, StartupEvent.logError] ∧
    (startServer cfg b).listenCalls = [] ∧
    (∀ p, StartupEvent.listen p ∉ (startServer cfg b).events) ∧
    StartupEvent.processExit ∉ (startServer cfg b).events ∧
    StartupEvent.retryConnect ∉ (startServer cfg b).events := by
  cases b with
  | ok => exact absurd rfl h
  | pubFails =>
      have he : (startServer cfg ConnectBehavior.pubFails).events =
          [StartupEvent.createHttpServer, StartupEvent.logError] := rfl
      refine ⟨he, rfl, ?_, ?_, ?_⟩
      · intro p
        rw [he]
        simp
      · rw [he]
        simp
      · rw [he]
        simp
  | subFails =>
      have he : (startServer cfg ConnectBehavior.subFails).events =
          [StartupEvent.createHttpServer, StartupEvent.logError] := rfl
      refine ⟨he, rfl, ?_, ?_, ?_⟩
      · intro p
        rw [he]
        simp
      · rw [he]
        simp
      · rw [he]
        simp

/-- Claim C10 witness: on the sample configuration with the pub connect
failing, startup only logs the error and never listens, exits or retries. -/
theorem C10_witness :
    ConnectBehavior.pubFails ≠ ConnectBehavior.ok ∧
    ((startServer sampleConfig ConnectBehavior.pubFails).events =
        [StartupEvent.createHttpServer, StartupEvent.logError] ∧
      (startServer sampleConfig ConnectBehavior.pubFails).listenCalls = [] ∧
      (∀ p, StartupEvent.listen p ∉
        (startServer sampleConfig ConnectBehavior.pubFails).events) ∧
      StartupEvent.processExit ∉
        (startServer sampleConfig ConnectBehavior.pubFails).events ∧
      StartupEvent.retryConnect ∉
        (startServer sampleConfig ConnectBehavior.pubFails).events) :=
  ⟨by decide,
    C10_startup_failure_only_logged sampleConfig ConnectBehavior.pubFails
      (by decide)⟩

end Chatty
